import Mathlib

/-!
Shallow embedding of the `SessionGuard` session-based authentication guard
(`factories/lucid_user_provider.ts`, `SessionGuard` class) together with the
collaborator interfaces it depends on (user provider, session store, cookie
transport, event emitter).  Mutable per-request guard state and all side
effects (session-store reads/writes, cookie reads/writes, provider calls,
emitted events) are threaded explicitly through a `World` record; thrown
exceptions are modelled with `Except`.
-/

namespace SessionAuth

/-- A remember-me token as surfaced by the user provider:
`identifier` (stable lookup key), `tokenableId` (owning user's id) and
`value` (the one-time secret released when minting the cookie). -/
structure RememberMeToken where
  identifier : Nat
  tokenableId : Nat
  value : String
deriving DecidableEq, Repr

/-- A provider user wrapper: `id` models `getId()` and `original` models
`getOriginal()` (the underlying domain user). -/
structure ProviderUser (U : Type) where
  id : Nat
  original : U
deriving DecidableEq, Repr

/-- The user-provider capability the guard depends on
(`SessionUserProviderContract`).  User ids are modelled as `Nat`. -/
structure UserProvider (U : Type) where
  findById : Nat → Option (ProviderUser U)
  verifyRememberToken : String → Option RememberMeToken
  recycleRememberToken : U → Nat → RememberMeToken
  createUserForGuard : U → ProviderUser U

/-- The request's session store: a session id plus key/value entries
(values are the stored user ids). -/
structure SessionStore where
  sessionId : String
  values : List (String × Nat)
deriving DecidableEq, Repr

/-- Events emitted by the guard on the emitter
(`session_auth:authentication_attempted` / `_succeeded` / `_failed`). -/
inductive GuardEvent (U : Type) where
  | authenticationAttempted (guardName sessionId : String)
  | authenticationSucceeded (guardName sessionId : String) (user : U)
      (rememberMeToken : Option RememberMeToken)
  | authenticationFailed (guardName sessionId : String) (guardDriverName : String)
deriving DecidableEq, Repr

/-- Observable side effects of one request: session-store and provider I/O,
cookie reads/writes, and emitted events. -/
inductive SideEffect (U : Type) where
  | sessionGet (key : String)
  | sessionPut (key : String) (value : Nat)
  | sessionRegenerate
  | cookieRead (key : String)
  | cookieWrite (key : String) (value : String)
  | providerFindById (id : Nat)
  | providerVerifyRememberToken (cookie : String)
  | providerRecycleRememberToken (identifier : Nat)
  | providerCreateUserForGuard
  | emit (e : GuardEvent U)
deriving DecidableEq, Repr

/-- The guard's mutable per-request state, with the class-field initial
values of `SessionGuard`. -/
structure GuardState (U : Type) where
  authenticationAttempted : Bool := false
  isAuthenticated : Bool := false
  viaRemember : Bool := false
  attemptedViaRemember : Bool := false
  isLoggedOut : Bool := false
  user : Option U := none
deriving DecidableEq, Repr

/-- The mutable world of one request: guard state, session store, cookies
written on the response, and the chronological side-effect log. -/
structure World (U : Type) where
  guard : GuardState U
  session : SessionStore
  responseCookies : List (String × String)
  log : List (SideEffect U)
deriving DecidableEq, Repr

/-- Errors thrown by the guard: `unauthorized` models
`E_UNAUTHORIZED_ACCESS` (tagged with the guard driver name), `runtime`
models `RuntimeException` (a configuration error). -/
inductive AuthError where
  | unauthorized (guardDriverName : String)
  | runtime (message : String)
deriving DecidableEq, Repr

/-- The read-only per-request configuration: guard name, whether the
session capability exists on the HTTP context, the decrypted remember-me
request cookie (`none` when absent or undecryptable), and the provider. -/
structure Config (U : Type) where
  name : String
  hasSession : Bool
  rememberMeCookie : Option String
  provider : UserProvider U

/-- The guard driver name, `driverName`. -/
def driverName : String := "session"

/-- The session key storing the logged-in user id (`sessionKeyName`). -/
def Config.sessionKeyName (cfg : Config U) : String := "auth_" ++ cfg.name

/-- The remember-me cookie key (`rememberMeKeyName`). -/
def Config.rememberMeKeyName (cfg : Config U) : String := "remember_" ++ cfg.name

/-- Append one side effect to the world's log. -/
def World.logged (w : World U) (e : SideEffect U) : World U :=
  { w with log := w.log ++ [e] }

/-- The configuration error thrown by `#getSession` when the session
capability is missing from the context. -/
def sessionConfigError : AuthError :=
  .runtime "Cannot authenticate user. Install and configure the session package"

/-- The `#getSession` method: returns the context's session or throws a
`RuntimeException` when the session capability is absent. -/
def getSession (cfg : Config U) (w : World U) : Except AuthError SessionStore :=
  if cfg.hasSession then .ok w.session else .error sessionConfigError

/-- The `#authenticationFailed` method: constructs the unauthorized error, emits the
`authentication_failed` event, and returns the error for the caller to
throw. -/
def authenticationFailed (cfg : Config U) (w : World U) (sessionId : String) :
    AuthError × World U :=
  let error := AuthError.unauthorized driverName
  (error, w.logged (.emit (.authenticationFailed cfg.name sessionId driverName)))

/-- The `#authenticationSucceeded` method: updates local state to reflect success and
emits the `authentication_succeeded` event. -/
def authenticationSucceeded (cfg : Config U) (w : World U) (sessionId : String)
    (user : U) (rememberMeToken : Option RememberMeToken) : World U :=
  let w := { w with guard := { w.guard with
    user := some user
    isAuthenticated := true
    isLoggedOut := false
    viaRemember := rememberMeToken.isSome } }
  w.logged (.emit (.authenticationSucceeded cfg.name sessionId user rememberMeToken))

/-- The `#authenticateViaId` method: look the user up with the provider; on miss emit
the failure event and throw, otherwise record success and return the user. -/
def authenticateViaId (cfg : Config U) (w : World U) (userId : Nat)
    (sessionId : String) : Except AuthError (Option U) × World U :=
  let w := w.logged (.providerFindById userId)
  match cfg.provider.findById userId with
  | none =>
      let p := authenticationFailed cfg w sessionId
      (.error p.1, p.2)
  | some providerUser =>
      let w := authenticationSucceeded cfg w sessionId providerUser.original none
      (.ok w.guard.user, w)

/-- The `#createSessionForUser` method: grab the session (which throws when the
capability is missing), write the user id under the session key, then
regenerate the session. -/
def createSessionForUser (cfg : Config U) (w : World U) (userId : Nat) :
    Except AuthError (World U) :=
  if cfg.hasSession then
    let w := w.logged (.sessionPut cfg.sessionKeyName userId)
    let w := { w with session := { w.session with
      values := (cfg.sessionKeyName, userId) ::
        w.session.values.filter (fun kv => kv.1 != cfg.sessionKeyName) } }
    .ok (w.logged .sessionRegenerate)
  else .error sessionConfigError

/-- The `#createRememberMeCookie` method: write the encrypted remember-me cookie on
the response. -/
def createRememberMeCookie (cfg : Config U) (w : World U) (value : String) :
    World U :=
  let w := w.logged (.cookieWrite cfg.rememberMeKeyName value)
  { w with responseCookies := w.responseCookies ++ [(cfg.rememberMeKeyName, value)] }

/-- The `#authenticateViaRememberCookie` method: verify the cookie with the provider,
look up the token's owner, create a fresh session, record success, recycle
the token and issue the new cookie from the recycled token's one-time
value. -/
def authenticateViaRememberCookie (cfg : Config U) (w : World U)
    (rememberMeCookie : String) (sessionId : String) :
    Except AuthError (Option U) × World U :=
  let w := w.logged (.providerVerifyRememberToken rememberMeCookie)
  match cfg.provider.verifyRememberToken rememberMeCookie with
  | none =>
      let p := authenticationFailed cfg w sessionId
      (.error p.1, p.2)
  | some token =>
      let w := w.logged (.providerFindById token.tokenableId)
      match cfg.provider.findById token.tokenableId with
      | none =>
          let p := authenticationFailed cfg w sessionId
          (.error p.1, p.2)
      | some providerUser =>
          match createSessionForUser cfg w providerUser.id with
          | .error e => (.error e, w)
          | .ok w =>
              let w := authenticationSucceeded cfg w sessionId
                providerUser.original (some token)
              -- `this.user!` equals `providerUser.getOriginal()` here.
              let recycledToken := cfg.provider.recycleRememberToken
                providerUser.original token.identifier
              let w := w.logged (.providerRecycleRememberToken token.identifier)
              let w := createRememberMeCookie cfg w recycledToken.value
              (.ok w.guard.user, w)

/-- The `getUserOrFail` method: return the cached user or throw unauthorized; a pure
state query that emits nothing and mutates nothing. -/
def getUserOrFail (w : World U) : Except AuthError U × World U :=
  match w.guard.user with
  | none => (.error (.unauthorized driverName), w)
  | some u => (.ok u, w)

/-- JS truthiness of the session-store lookup result: `undefined` and the
number `0` are falsy in `if (authUserId)`. -/
def truthyId : Option Nat → Option Nat
  | some v => if v = 0 then none else some v
  | none => none

/-- JS truthiness of the decrypted cookie: `undefined`/`null` and the
empty string are falsy in `if (rememberMeCookie)`. -/
def truthyCookie : Option String → Option String
  | some s => if s = "" then none else some s
  | none => none

/-- The `authenticate` method: memoized per request.  On the first attempt: mark
attempted, grab the session (throwing a configuration error when absent),
emit the attempted event, then try the session user id, then the
remember-me cookie; with neither credential the call resolves without a
user.  On a repeat call: defer to `getUserOrFail`. -/
def authenticate (cfg : Config U) (w : World U) :
    Except AuthError (Option U) × World U :=
  if w.guard.authenticationAttempted then
    let p := getUserOrFail w
    (p.1.map some, p.2)
  else
    let w := { w with guard := { w.guard with authenticationAttempted := true } }
    match getSession cfg w with
    | .error e => (.error e, w)
    | .ok session =>
        let w := w.logged (.emit (.authenticationAttempted cfg.name session.sessionId))
        let w := w.logged (.sessionGet cfg.sessionKeyName)
        match truthyId (session.values.lookup cfg.sessionKeyName) with
        | some userId => authenticateViaId cfg w userId session.sessionId
        | none =>
            let w := w.logged (.cookieRead cfg.rememberMeKeyName)
            match truthyCookie cfg.rememberMeCookie with
            | some rememberMeCookie =>
                let w := { w with guard :=
                  { w.guard with attemptedViaRemember := true } }
                authenticateViaRememberCookie cfg w rememberMeCookie session.sessionId
            | none => (.ok none, w)

/-- The `check` method: run `authenticate`, map success to `true`, catch exactly the
unauthorized error kind as `false`, and rethrow anything else. -/
def check (cfg : Config U) (w : World U) : Except AuthError Bool × World U :=
  match authenticate cfg w with
  | (.ok _, w) => (.ok true, w)
  | (.error (.unauthorized _), w) => (.ok false, w)
  | (.error e, w) => (.error e, w)

/-- The `authenticateAsClient` method: materialize a provider user for the given user
and return the session payload `{ sessionKeyName: userId }`; no guard
state, store or cookie mutation. -/
def authenticateAsClient (cfg : Config U) (w : World U) (user : U) :
    (String × Nat) × World U :=
  let providerUser := cfg.provider.createUserForGuard user
  ((cfg.sessionKeyName, providerUser.id), w.logged .providerCreateUserForGuard)

/-- The world of a freshly constructed guard for a request with session
store `s`: default guard state, no response cookies, empty log. -/
def initialWorld (s : SessionStore) : World U :=
  { guard := {}, session := s, responseCookies := [], log := [] }

/-- Is this side effect an emitted `authentication_failed` event? -/
def isFailedEvent : SideEffect U → Bool
  | .emit (.authenticationFailed _ _ _) => true
  | _ => false

/-- Is this side effect an emitted `authentication_succeeded` event? -/
def isSucceededEvent : SideEffect U → Bool
  | .emit (.authenticationSucceeded _ _ _ _) => true
  | _ => false

/-- Number of `authentication_failed` events in a log. -/
def failedEventCount (log : List (SideEffect U)) : Nat :=
  (log.filter isFailedEvent).length

/-- Number of `authentication_succeeded` events in a log. -/
def succeededEventCount (log : List (SideEffect U)) : Nat :=
  (log.filter isSucceededEvent).length

/-- The emitted events of a log, in order. -/
def eventsOf (log : List (SideEffect U)) : List (GuardEvent U) :=
  log.filterMap fun e => match e with
    | .emit ev => some ev
    | _ => none

/-- Is this side effect a mutation: a session-store put or regeneration,
or a response-cookie write? -/
def isMutationEffect : SideEffect U → Bool
  | .sessionPut _ _ => true
  | .sessionRegenerate => true
  | .cookieWrite _ _ => true
  | _ => false

/-- Did the result surface as the unauthorized error kind? -/
def isUnauthorized : Except AuthError α → Bool
  | .error (.unauthorized _) => true
  | _ => false

/-- One public guard operation, for reachability over call sequences. -/
inductive GuardOp (U : Type) where
  | auth
  | chk
  | getOrFail
  | asClient (user : U)

/-- Run one public guard operation, keeping the resulting world. -/
def runOp (cfg : Config U) (w : World U) : GuardOp U → World U
  | .auth => (authenticate cfg w).2
  | .chk => (check cfg w).2
  | .getOrFail => (getUserOrFail w).2
  | .asClient user => (authenticateAsClient cfg w user).2

/-- Run a sequence of public guard operations from a world. -/
def runOps (cfg : Config U) (w : World U) : List (GuardOp U) → World U
  | [] => w
  | op :: ops => runOps cfg (runOp cfg w op) ops

/-- The guard-state invariant: the user is set exactly when
`isAuthenticated` holds, at most one success event was recorded, and a
guard that has not yet attempted authentication has no user, is not
authenticated and has recorded no success. -/
def GuardInv (w : World U) : Prop :=
  w.guard.user.isSome = w.guard.isAuthenticated ∧
  succeededEventCount w.log ≤ 1 ∧
  (w.guard.authenticationAttempted = false →
    w.guard.user = none ∧ w.guard.isAuthenticated = false ∧
    succeededEventCount w.log = 0)

/-- Concrete sample token for witnesses: identifier 11, owner 7. -/
def sampleToken : RememberMeToken :=
  { identifier := 11, tokenableId := 7, value := "tokvalue" }

/-- Concrete recycled token for witnesses: fresh one-time value. -/
def freshSampleToken : RememberMeToken :=
  { identifier := 12, tokenableId := 7, value := "newvalue" }

/-- Concrete provider over `Nat` users for witnesses: knows user 7
(domain value 70), verifies the cookie string "cookie7" to `sampleToken`,
and recycles to `freshSampleToken`. -/
def sampleProvider : UserProvider Nat :=
  { findById := fun i => if i = 7 then some { id := 7, original := 70 } else none
    verifyRememberToken := fun c => if c = "cookie7" then some sampleToken else none
    recycleRememberToken := fun _ _ => freshSampleToken
    createUserForGuard := fun u => { id := u, original := u } }

/-- Configuration with a session capability but no remember cookie. -/
def cfgNoCookie : Config Nat :=
  { name := "web", hasSession := true, rememberMeCookie := none
    provider := sampleProvider }

/-- Configuration with a session capability and a valid remember cookie. -/
def cfgWithCookie : Config Nat :=
  { name := "web", hasSession := true, rememberMeCookie := some "cookie7"
    provider := sampleProvider }

/-- Configuration whose context lacks the session capability. -/
def cfgNoSession : Config Nat :=
  { name := "web", hasSession := false, rememberMeCookie := none
    provider := sampleProvider }

/-- An empty session store for witnesses. -/
def emptyStore : SessionStore := { sessionId := "sid0", values := [] }

/-- A session store holding user id 7 under the `auth_web` key. -/
def storeWithId7 : SessionStore := { sessionId := "sid7", values := [("auth_web", 7)] }

/-- A provider that knows a user whose id is 0 (domain value 99). -/
def providerZero : UserProvider Nat :=
  { findById := fun i => if i = 0 then some { id := 0, original := 99 } else none
    verifyRememberToken := fun _ => none
    recycleRememberToken := fun _ _ => freshSampleToken
    createUserForGuard := fun u => { id := u, original := u } }

/-- Configuration over `providerZero` with no remember cookie. -/
def cfgZero : Config Nat :=
  { name := "web", hasSession := true, rememberMeCookie := none
    provider := providerZero }

/-- A session store holding user id 0 under the `auth_web` key. -/
def storeZero : SessionStore := { sessionId := "sidz", values := [("auth_web", 0)] }

end SessionAuth

namespace SessionAuth

variable {U : Type}

theorem getUserOrFail_world (w : World U) : (getUserOrFail w).2 = w := by
  unfold getUserOrFail
  cases w.guard.user <;> rfl

theorem createSessionForUser_guard (cfg : Config U) (w w' : World U) (uid : Nat)
    (h : createSessionForUser cfg w uid = .ok w') : w'.guard = w.guard := by
  unfold createSessionForUser at h
  split at h
  · injection h with h
    subst h
    rfl
  · exact absurd h (by simp)

theorem authenticateViaId_attempted (cfg : Config U) (w : World U)
    (uid : Nat) (sid : String) :
    ((authenticateViaId cfg w uid sid).2).guard.authenticationAttempted =
      w.guard.authenticationAttempted := by
  unfold authenticateViaId
  dsimp only
  split <;> rfl

theorem authenticateViaRememberCookie_attempted (cfg : Config U) (w : World U)
    (c sid : String) :
    ((authenticateViaRememberCookie cfg w c sid).2).guard.authenticationAttempted =
      w.guard.authenticationAttempted := by
  unfold authenticateViaRememberCookie
  dsimp only
  split
  · rfl
  · split
    · rfl
    · split
      · rfl
      · rename_i w' hw
        have hg := createSessionForUser_guard cfg _ _ _ hw
        simp [authenticationSucceeded, createRememberMeCookie, World.logged, hg]

theorem authenticate_attempted (cfg : Config U) (w : World U) :
    ((authenticate cfg w).2).guard.authenticationAttempted = true := by
  unfold authenticate
  dsimp only
  split
  · rename_i h
    rw [getUserOrFail_world]
    exact h
  · split
    · rfl
    · split
      · rw [authenticateViaId_attempted]
        rfl
      · split
        · rw [authenticateViaRememberCookie_attempted]
          rfl
        · rfl


theorem authenticate_of_attempted (cfg : Config U) (w : World U)
    (h : w.guard.authenticationAttempted = true) :
    authenticate cfg w =
      ((match w.guard.user with
        | some u => Except.ok (some u)
        | none => Except.error (AuthError.unauthorized driverName)), w) := by
  unfold authenticate
  rw [if_pos h]
  unfold getUserOrFail
  cases w.guard.user <;> rfl

theorem check_eq (cfg : Config U) (w : World U) :
    check cfg w =
      ((match (authenticate cfg w).1 with
        | .ok _ => Except.ok true
        | .error (.unauthorized _) => Except.ok false
        | .error e => Except.error e), (authenticate cfg w).2) := by
  unfold check
  rcases h : authenticate cfg w with ⟨r, w1⟩
  rcases r with e | v
  · cases e <;> rfl
  · rfl

theorem authenticate_no_session (cfg : Config U) (s : SessionStore)
    (hS : cfg.hasSession = false) :
    authenticate cfg (initialWorld s) =
      (Except.error sessionConfigError,
       { guard := { authenticationAttempted := true }, session := s,
         responseCookies := [], log := [] }) := by
  simp [authenticate, getSession, initialWorld, hS]

theorem authenticate_no_credentials (cfg : Config U) (s : SessionStore)
    (hS : cfg.hasSession = true)
    (hL : s.values.lookup cfg.sessionKeyName = none)
    (hC : cfg.rememberMeCookie = none) :
    authenticate cfg (initialWorld s) =
      (Except.ok none,
       { guard := { authenticationAttempted := true }, session := s,
         responseCookies := [],
         log := [.emit (.authenticationAttempted cfg.name s.sessionId),
                 .sessionGet cfg.sessionKeyName,
                 .cookieRead cfg.rememberMeKeyName] }) := by
  simp [authenticate, getSession, initialWorld, hS, hL, hC, truthyId, truthyCookie,
    World.logged]

/-- Claim C1 (amended): a memoized repeat of `authenticate()` leaves the world
(state, store, cookies, log — hence all session-store and provider I/O)
unchanged and returns the cached user when one is set, otherwise fails with
the unauthorized error; the two calls therefore agree whenever the first
authenticated a user, but not on the no-credentials or missing-session
paths, where the first call did not fail unauthorized. -/
theorem c1_authenticate_memoized_repeat (cfg : Config U) (s : SessionStore) :
    (authenticate cfg (authenticate cfg (initialWorld s)).2).2 =
      (authenticate cfg (initialWorld s)).2 ∧
    (authenticate cfg (authenticate cfg (initialWorld s)).2).1 =
      (match ((authenticate cfg (initialWorld s)).2).guard.user with
        | some u => Except.ok (some u)
        | none => Except.error (AuthError.unauthorized driverName)) := by
  rw [authenticate_of_attempted cfg _ (authenticate_attempted cfg _)]
  exact ⟨rfl, rfl⟩

/-- Claim C1 counterexample: with no session user id and no remember cookie,
the first `authenticate()` resolves without a user while the repeated call
fails unauthorized — calling twice does not yield the same result as
calling once. -/
theorem c1_counterexample_no_credentials :
    (authenticate cfgNoCookie (initialWorld emptyStore)).1 = Except.ok none ∧
    (authenticate cfgNoCookie (authenticate cfgNoCookie (initialWorld emptyStore)).2).1 =
      Except.error (AuthError.unauthorized driverName) ∧
    (authenticate cfgNoCookie (authenticate cfgNoCookie (initialWorld emptyStore)).2).1 ≠
      (authenticate cfgNoCookie (initialWorld emptyStore)).1 := by
  refine ⟨rfl, rfl, ?_⟩
  intro h
  exact Except.noConfusion h

/-- Claim C5: `check()` returns `true` when `authenticate()` completes
without failure, catches exactly the unauthorized error kind as `false`,
and propagates every other failure — in particular the configuration error
raised when the session capability is absent — unchanged. -/
theorem c5_check_behavior (cfg : Config U) (w : World U) (s : SessionStore) :
    (∀ v, (authenticate cfg w).1 = Except.ok v →
        check cfg w = (Except.ok true, (authenticate cfg w).2)) ∧
    (∀ d, (authenticate cfg w).1 = Except.error (AuthError.unauthorized d) →
        check cfg w = (Except.ok false, (authenticate cfg w).2)) ∧
    (∀ m, (authenticate cfg w).1 = Except.error (AuthError.runtime m) →
        check cfg w = (Except.error (AuthError.runtime m), (authenticate cfg w).2)) ∧
    (cfg.hasSession = false →
        check cfg (initialWorld s) =
          (Except.error sessionConfigError,
           { guard := { authenticationAttempted := true }, session := s,
             responseCookies := [], log := [] })) := by
  refine ⟨?_, ?_, ?_, ?_⟩
  · intro v h
    rw [check_eq, h]
  · intro d h
    rw [check_eq, h]
  · intro m h
    rw [check_eq, h]
  · intro hS
    rw [check_eq, authenticate_no_session cfg s hS]
    rfl

/-- Claim C5 witness: with the session capability absent, `check` surfaces
the configuration error instead of returning a boolean. -/
theorem c5_check_behavior_witness :
    check cfgNoSession (initialWorld emptyStore) =
      (Except.error sessionConfigError,
       { guard := { authenticationAttempted := true }, session := emptyStore,
         responseCookies := [], log := [] }) :=
  (c5_check_behavior cfgNoSession (initialWorld emptyStore) emptyStore).2.2.2 rfl

/-- Claim C7: with no session user-id entry and no remember cookie, the
first `authenticate()` resolves without raising a failure, leaves the user
unset and `isAuthenticated` false, mutates neither the session store nor
the response cookies, and emits only the attempted event. -/
theorem c7_no_credentials (cfg : Config U) (s : SessionStore)
    (hS : cfg.hasSession = true)
    (hL : s.values.lookup cfg.sessionKeyName = none)
    (hC : cfg.rememberMeCookie = none) :
    authenticate cfg (initialWorld s) =
      (Except.ok none,
       { guard := { authenticationAttempted := true }, session := s,
         responseCookies := [],
         log := [.emit (.authenticationAttempted cfg.name s.sessionId),
                 .sessionGet cfg.sessionKeyName,
                 .cookieRead cfg.rememberMeKeyName] }) ∧
    eventsOf ((authenticate cfg (initialWorld s)).2).log =
      [.authenticationAttempted cfg.name s.sessionId] := by
  have h := authenticate_no_credentials cfg s hS hL hC
  refine ⟨h, ?_⟩
  rw [h]
  rfl

/-- Claim C7 witness at a concrete empty request. -/
theorem c7_no_credentials_witness :
    authenticate cfgNoCookie (initialWorld emptyStore) =
      (Except.ok none,
       { guard := { authenticationAttempted := true }, session := emptyStore,
         responseCookies := [],
         log := [.emit (.authenticationAttempted cfgNoCookie.name emptyStore.sessionId),
                 .sessionGet cfgNoCookie.sessionKeyName,
                 .cookieRead cfgNoCookie.rememberMeKeyName] }) ∧
    eventsOf ((authenticate cfgNoCookie (initialWorld emptyStore)).2).log =
      [.authenticationAttempted cfgNoCookie.name emptyStore.sessionId] :=
  c7_no_credentials cfgNoCookie emptyStore rfl rfl rfl

/-- Claim C9: with no session user-id entry and no remember cookie, a first
`check()` returns `true` (authenticate resolves without a user rather than
failing) although the guard is not authenticated, and a second `check()` on
the same guard returns `false` via the memoized `getUserOrFail` path. -/
theorem c9_check_true_then_false (cfg : Config U) (s : SessionStore)
    (hS : cfg.hasSession = true)
    (hL : s.values.lookup cfg.sessionKeyName = none)
    (hC : cfg.rememberMeCookie = none) :
    (check cfg (initialWorld s)).1 = Except.ok true ∧
    ((check cfg (initialWorld s)).2).guard.isAuthenticated = false ∧
    ((check cfg (initialWorld s)).2).guard.user = none ∧
    (check cfg (check cfg (initialWorld s)).2).1 = Except.ok false := by
  have h := authenticate_no_credentials cfg s hS hL hC
  rw [check_eq, h]
  refine ⟨rfl, rfl, rfl, ?_⟩
  rw [check_eq]
  rw [authenticate_of_attempted cfg _ (by rfl)]

/-- Claim C9 witness at a concrete empty request. -/
theorem c9_check_true_then_false_witness :
    (check cfgNoCookie (initialWorld emptyStore)).1 = Except.ok true ∧
    ((check cfgNoCookie (initialWorld emptyStore)).2).guard.isAuthenticated = false ∧
    ((check cfgNoCookie (initialWorld emptyStore)).2).guard.user = none ∧
    (check cfgNoCookie (check cfgNoCookie (initialWorld emptyStore)).2).1 =
      Except.ok false :=
  c9_check_true_then_false cfgNoCookie emptyStore rfl rfl rfl

/-- Claim C10: when the session capability is absent, the first
`authenticate()` marks the attempt before raising the configuration error
and emits no event, so every later `authenticate()` on the same guard fails
unauthorized and later `check()` calls return `false`. -/
theorem c10_missing_session (cfg : Config U) (s : SessionStore)
    (hS : cfg.hasSession = false) :
    authenticate cfg (initialWorld s) =
      (Except.error sessionConfigError,
       { guard := { authenticationAttempted := true }, session := s,
         responseCookies := [], log := [] }) ∧
    ((authenticate cfg (initialWorld s)).2).guard.authenticationAttempted = true ∧
    eventsOf ((authenticate cfg (initialWorld s)).2).log = [] ∧
    (authenticate cfg (authenticate cfg (initialWorld s)).2).1 =
      Except.error (AuthError.unauthorized driverName) ∧
    (check cfg (authenticate cfg (initialWorld s)).2).1 = Except.ok false := by
  have h := authenticate_no_session cfg s hS
  rw [h]
  refine ⟨rfl, rfl, rfl, ?_, ?_⟩
  · rw [authenticate_of_attempted cfg _ (by rfl)]
  · rw [check_eq, authenticate_of_attempted cfg _ (by rfl)]

/-- Claim C10 witness at a concrete session-less request. -/
theorem c10_missing_session_witness :
    authenticate cfgNoSession (initialWorld emptyStore) =
      (Except.error sessionConfigError,
       { guard := { authenticationAttempted := true }, session := emptyStore,
         responseCookies := [], log := [] }) ∧
    ((authenticate cfgNoSession (initialWorld emptyStore)).2).guard.authenticationAttempted = true ∧
    eventsOf ((authenticate cfgNoSession (initialWorld emptyStore)).2).log = [] ∧
    (authenticate cfgNoSession (authenticate cfgNoSession (initialWorld emptyStore)).2).1 =
      Except.error (AuthError.unauthorized driverName) ∧
    (check cfgNoSession (authenticate cfgNoSession (initialWorld emptyStore)).2).1 =
      Except.ok false :=
  c10_missing_session cfgNoSession emptyStore rfl

/-- Claim C3: with no session user-id entry and a remember cookie the
provider verifies to a token of an existing user, `authenticate()` succeeds
with `viaRemember = true`; the session store receives a put of the user id
under the session key followed by a regeneration, the old token identifier
is passed to the provider for recycling, and the new remember cookie
carries the recycled token's one-time value, which (by the provider's
rotation) differs from the input cookie value. -/
theorem c3_remember_cookie_success (cfg : Config U) (s : SessionStore)
    (c : String) (token : RememberMeToken) (pu : ProviderUser U)
    (hS : cfg.hasSession = true)
    (hL : s.values.lookup cfg.sessionKeyName = none)
    (hC : cfg.rememberMeCookie = some c)
    (hC0 : c ≠ "")
    (hV : cfg.provider.verifyRememberToken c = some token)
    (hF : cfg.provider.findById token.tokenableId = some pu)
    (hR : (cfg.provider.recycleRememberToken pu.original token.identifier).value ≠ c) :
    authenticate cfg (initialWorld s) =
      (Except.ok (some pu.original),
       { guard := { authenticationAttempted := true, isAuthenticated := true,
                    viaRemember := true, attemptedViaRemember := true,
                    isLoggedOut := false, user := some pu.original },
         session := { sessionId := s.sessionId,
                      values := (cfg.sessionKeyName, pu.id) ::
                        s.values.filter (fun kv => kv.1 != cfg.sessionKeyName) },
         responseCookies := [(cfg.rememberMeKeyName,
           (cfg.provider.recycleRememberToken pu.original token.identifier).value)],
         log := [.emit (.authenticationAttempted cfg.name s.sessionId),
                 .sessionGet cfg.sessionKeyName,
                 .cookieRead cfg.rememberMeKeyName,
                 .providerVerifyRememberToken c,
                 .providerFindById token.tokenableId,
                 .sessionPut cfg.sessionKeyName pu.id,
                 .sessionRegenerate,
                 .emit (.authenticationSucceeded cfg.name s.sessionId pu.original
                   (some token)),
                 .providerRecycleRememberToken token.identifier,
                 .cookieWrite cfg.rememberMeKeyName
                   (cfg.provider.recycleRememberToken pu.original token.identifier).value] }) ∧
    (cfg.provider.recycleRememberToken pu.original token.identifier).value ≠ c := by
  refine ⟨?_, hR⟩
  simp [authenticate, getSession, initialWorld, hS, hL, hC, hC0, truthyId, truthyCookie,
    authenticateViaRememberCookie, hV, hF, createSessionForUser, authenticationSucceeded,
    createRememberMeCookie, World.logged]

/-- Claim C3 witness: concrete request whose cookie "cookie7" verifies to a
token of user 7; the issued cookie carries the recycled one-time value. -/
theorem c3_remember_cookie_success_witness :
    authenticate cfgWithCookie (initialWorld emptyStore) =
      (Except.ok (some (70 : Nat)),
       { guard := { authenticationAttempted := true, isAuthenticated := true,
                    viaRemember := true, attemptedViaRemember := true,
                    isLoggedOut := false, user := some 70 },
         session := { sessionId := emptyStore.sessionId,
                      values := (cfgWithCookie.sessionKeyName, 7) ::
                        emptyStore.values.filter
                          (fun kv => kv.1 != cfgWithCookie.sessionKeyName) },
         responseCookies := [(cfgWithCookie.rememberMeKeyName,
           (cfgWithCookie.provider.recycleRememberToken 70 sampleToken.identifier).value)],
         log := [.emit (.authenticationAttempted cfgWithCookie.name emptyStore.sessionId),
                 .sessionGet cfgWithCookie.sessionKeyName,
                 .cookieRead cfgWithCookie.rememberMeKeyName,
                 .providerVerifyRememberToken "cookie7",
                 .providerFindById sampleToken.tokenableId,
                 .sessionPut cfgWithCookie.sessionKeyName 7,
                 .sessionRegenerate,
                 .emit (.authenticationSucceeded cfgWithCookie.name emptyStore.sessionId 70
                   (some sampleToken)),
                 .providerRecycleRememberToken sampleToken.identifier,
                 .cookieWrite cfgWithCookie.rememberMeKeyName
                   (cfgWithCookie.provider.recycleRememberToken 70 sampleToken.identifier).value] }) ∧
    (cfgWithCookie.provider.recycleRememberToken 70 sampleToken.identifier).value ≠
      "cookie7" :=
  c3_remember_cookie_success cfgWithCookie emptyStore "cookie7" sampleToken
    { id := 7, original := 70 } rfl rfl rfl (by decide) rfl rfl (by decide)

/-- Claim C4: with no session user-id entry and a remember cookie that the
provider rejects — or whose token's owning user is missing — the first
`authenticate()` fails unauthorized, mutates neither the session store nor
the response cookies (no put, no regeneration, no cookie write), and emits
exactly one failure event. -/
theorem c4_invalid_cookie_failure (cfg : Config U) (s : SessionStore)
    (c : String)
    (hS : cfg.hasSession = true)
    (hL : s.values.lookup cfg.sessionKeyName = none)
    (hC : cfg.rememberMeCookie = some c)
    (hC0 : c ≠ "")
    (hBad : cfg.provider.verifyRememberToken c = none ∨
      ∃ token, cfg.provider.verifyRememberToken c = some token ∧
        cfg.provider.findById token.tokenableId = none) :
    (authenticate cfg (initialWorld s)).1 =
      Except.error (AuthError.unauthorized driverName) ∧
    ((authenticate cfg (initialWorld s)).2).session = s ∧
    ((authenticate cfg (initialWorld s)).2).responseCookies = [] ∧
    ((authenticate cfg (initialWorld s)).2).log.filter isMutationEffect = [] ∧
    failedEventCount ((authenticate cfg (initialWorld s)).2).log = 1 := by
  rcases hBad with hV | ⟨token, hV, hF⟩
  · simp [authenticate, getSession, initialWorld, hS, hL, hC, hC0, truthyId, truthyCookie,
      authenticateViaRememberCookie, hV, authenticationFailed, World.logged,
      isMutationEffect, failedEventCount, isFailedEvent, List.filter]
  · simp [authenticate, getSession, initialWorld, hS, hL, hC, hC0, truthyId, truthyCookie,
      authenticateViaRememberCookie, hV, hF, authenticationFailed, World.logged,
      isMutationEffect, failedEventCount, isFailedEvent, List.filter]

/-- Claim C4 witness: a cookie the provider does not verify fails
unauthorized with one failure event and no mutation. -/
theorem c4_invalid_cookie_failure_witness :
    (authenticate
        { name := "web", hasSession := true, rememberMeCookie := some "bad",
          provider := sampleProvider } (initialWorld emptyStore)).1 =
      Except.error (AuthError.unauthorized driverName) ∧
    ((authenticate
        { name := "web", hasSession := true, rememberMeCookie := some "bad",
          provider := sampleProvider } (initialWorld emptyStore)).2).session = emptyStore ∧
    ((authenticate
        { name := "web", hasSession := true, rememberMeCookie := some "bad",
          provider := sampleProvider } (initialWorld emptyStore)).2).responseCookies = [] ∧
    ((authenticate
        { name := "web", hasSession := true, rememberMeCookie := some "bad",
          provider := sampleProvider } (initialWorld emptyStore)).2).log.filter
        isMutationEffect = [] ∧
    failedEventCount ((authenticate
        { name := "web", hasSession := true, rememberMeCookie := some "bad",
          provider := sampleProvider } (initialWorld emptyStore)).2).log = 1 :=
  c4_invalid_cookie_failure _ emptyStore "bad" rfl rfl rfl (by decide) (Or.inl rfl)

/-- Claim C6 (amended): when the session store holds a truthy (nonzero)
user id under the guard's session key, a first `authenticate()` resolves
through the provider: if `findById` returns a user it succeeds with that
user, `isAuthenticated = true`, `viaRemember = false` and the remember
cookie is never read; if `findById` returns none it fails unauthorized with
exactly one failure event.  A stored id of 0 is falsy in the source's
`if (authUserId)` test and falls through to the cookie path instead. -/
theorem c6_authenticate_via_id (cfg : Config U) (s : SessionStore) (uid : Nat)
    (hL : s.values.lookup cfg.sessionKeyName = some uid)
    (hNZ : uid ≠ 0)
    (hS : cfg.hasSession = true) :
    (∀ pu, cfg.provider.findById uid = some pu →
      authenticate cfg (initialWorld s) =
        (Except.ok (some pu.original),
         { guard := { authenticationAttempted := true, isAuthenticated := true,
                      viaRemember := false, attemptedViaRemember := false,
                      isLoggedOut := false, user := some pu.original },
           session := s, responseCookies := [],
           log := [.emit (.authenticationAttempted cfg.name s.sessionId),
                   .sessionGet cfg.sessionKeyName,
                   .providerFindById uid,
                   .emit (.authenticationSucceeded cfg.name s.sessionId pu.original
                     none)] })) ∧
    (cfg.provider.findById uid = none →
      (authenticate cfg (initialWorld s)).1 =
        Except.error (AuthError.unauthorized driverName) ∧
      failedEventCount ((authenticate cfg (initialWorld s)).2).log = 1 ∧
      ((authenticate cfg (initialWorld s)).2).log =
        [.emit (.authenticationAttempted cfg.name s.sessionId),
         .sessionGet cfg.sessionKeyName,
         .providerFindById uid,
         .emit (.authenticationFailed cfg.name s.sessionId driverName)]) := by
  constructor
  · intro pu hF
    simp [authenticate, getSession, initialWorld, hS, hL, hNZ, truthyId,
      authenticateViaId, hF, authenticationSucceeded, World.logged]
  · intro hF
    simp [authenticate, getSession, initialWorld, hS, hL, hNZ, truthyId,
      authenticateViaId, hF, authenticationFailed, World.logged,
      failedEventCount, isFailedEvent, List.filter]

/-- Claim C6 witness: session holds id 7 and the provider knows user 7. -/
theorem c6_authenticate_via_id_witness :
    authenticate cfgNoCookie (initialWorld storeWithId7) =
      (Except.ok (some (70 : Nat)),
       { guard := { authenticationAttempted := true, isAuthenticated := true,
                    viaRemember := false, attemptedViaRemember := false,
                    isLoggedOut := false, user := some 70 },
         session := storeWithId7, responseCookies := [],
         log := [.emit (.authenticationAttempted cfgNoCookie.name storeWithId7.sessionId),
                 .sessionGet cfgNoCookie.sessionKeyName,
                 .providerFindById 7,
                 .emit (.authenticationSucceeded cfgNoCookie.name storeWithId7.sessionId
                   70 none)] }) :=
  (c6_authenticate_via_id cfgNoCookie storeWithId7 7 rfl (by decide) rfl).1
    { id := 7, original := 70 } rfl

/-- Claim C6 counterexample: the session holds user id 0 and the provider
returns a user for id 0, yet `authenticate()` resolves without a user —
the stored id is falsy in JavaScript, so the session path is skipped. -/
theorem c6_counterexample_zero_id :
    storeZero.values.lookup cfgZero.sessionKeyName = some 0 ∧
    cfgZero.provider.findById 0 = some { id := 0, original := 99 } ∧
    (authenticate cfgZero (initialWorld storeZero)).1 = Except.ok none ∧
    (authenticate cfgZero (initialWorld storeZero)).1 ≠ Except.ok (some 99) ∧
    ((authenticate cfgZero (initialWorld storeZero)).2).guard.isAuthenticated = false := by
  refine ⟨rfl, rfl, rfl, ?_, rfl⟩
  intro h
  have h2 : (none : Option Nat) = some 99 := Except.ok.inj h
  exact Option.noConfusion h2

theorem getSession_error (cfg : Config U) (w : World U) (e : AuthError)
    (h : getSession cfg w = .error e) : e = sessionConfigError := by
  unfold getSession at h
  split at h
  · exact absurd h (by simp)
  · injection h with h
    exact h.symm

theorem createSessionForUser_error (cfg : Config U) (w : World U) (uid : Nat)
    (e : AuthError) (h : createSessionForUser cfg w uid = .error e) :
    e = sessionConfigError := by
  unfold createSessionForUser at h
  split at h
  · exact absurd h (by simp)
  · injection h with h
    exact h.symm

theorem createSessionForUser_log (cfg : Config U) (w w' : World U) (uid : Nat)
    (h : createSessionForUser cfg w uid = .ok w') :
    w'.log = w.log ++ [.sessionPut cfg.sessionKeyName uid, .sessionRegenerate] := by
  unfold createSessionForUser at h
  split at h
  · injection h with h
    subst h
    simp [World.logged]
  · exact absurd h (by simp)

theorem failedEventCount_append (l1 l2 : List (SideEffect U)) :
    failedEventCount (l1 ++ l2) = failedEventCount l1 + failedEventCount l2 := by
  simp [failedEventCount, List.filter_append]

theorem succeededEventCount_append (l1 l2 : List (SideEffect U)) :
    succeededEventCount (l1 ++ l2) = succeededEventCount l1 + succeededEventCount l2 := by
  simp [succeededEventCount, List.filter_append]

theorem succeededEventCount_nil : succeededEventCount ([] : List (SideEffect U)) = 0 := rfl

theorem succeededEventCount_cons (e : SideEffect U) (l : List (SideEffect U)) :
    succeededEventCount (e :: l) =
      (if isSucceededEvent e then 1 else 0) + succeededEventCount l := by
  by_cases h : isSucceededEvent e <;>
    simp [succeededEventCount, List.filter_cons, h, Nat.add_comm]

theorem authenticateViaId_failed_count (cfg : Config U) (w : World U)
    (uid : Nat) (sid : String) :
    failedEventCount ((authenticateViaId cfg w uid sid).2).log =
      failedEventCount w.log +
        (if isUnauthorized (authenticateViaId cfg w uid sid).1 then 1 else 0) := by
  unfold authenticateViaId
  dsimp only
  split
  · simp [authenticationFailed, World.logged, failedEventCount_append,
      failedEventCount, isFailedEvent, isUnauthorized]
  · simp [authenticationSucceeded, World.logged, failedEventCount_append,
      failedEventCount, isFailedEvent, isUnauthorized]

theorem authenticateViaRememberCookie_failed_count (cfg : Config U) (w : World U)
    (c sid : String) :
    failedEventCount ((authenticateViaRememberCookie cfg w c sid).2).log =
      failedEventCount w.log +
        (if isUnauthorized (authenticateViaRememberCookie cfg w c sid).1 then 1 else 0) := by
  unfold authenticateViaRememberCookie
  dsimp only
  cases hV : cfg.provider.verifyRememberToken c with
  | none =>
    simp [authenticationFailed, World.logged, failedEventCount_append,
      failedEventCount, isFailedEvent, isUnauthorized]
  | some token =>
    cases hF : cfg.provider.findById token.tokenableId with
    | none =>
      simp [hF, authenticationFailed, World.logged, failedEventCount_append,
        failedEventCount, isFailedEvent, isUnauthorized]
    | some pu =>
      cases hS : cfg.hasSession with
      | false =>
        simp [hF, createSessionForUser, hS, World.logged, failedEventCount_append,
          failedEventCount, isFailedEvent, isUnauthorized, sessionConfigError]
      | true =>
        simp [hF, createSessionForUser, hS, authenticationSucceeded,
          createRememberMeCookie, World.logged, failedEventCount_append,
          failedEventCount, isFailedEvent, isUnauthorized]

theorem authenticate_failed_count (cfg : Config U) (w : World U)
    (hA : w.guard.authenticationAttempted = false) :
    failedEventCount ((authenticate cfg w).2).log =
      failedEventCount w.log +
        (if isUnauthorized (authenticate cfg w).1 then 1 else 0) := by
  unfold authenticate
  rw [if_neg (by simp [hA])]
  dsimp only
  cases hs : getSession cfg
      { w with guard := { w.guard with authenticationAttempted := true } } with
  | error e =>
    have hconf := getSession_error cfg _ e hs
    subst hconf
    simp [isUnauthorized, sessionConfigError]
  | ok session =>
    cases ht : truthyId (session.values.lookup cfg.sessionKeyName) with
    | some uid =>
      simp only [ht]
      rw [authenticateViaId_failed_count]
      simp [World.logged, failedEventCount_append, failedEventCount, isFailedEvent]
    | none =>
      simp only [ht]
      cases hc2 : truthyCookie cfg.rememberMeCookie with
      | some c =>
        simp only [hc2]
        rw [authenticateViaRememberCookie_failed_count]
        simp [World.logged, failedEventCount_append, failedEventCount, isFailedEvent]
      | none =>
        simp [hc2, World.logged, failedEventCount_append, failedEventCount,
          isFailedEvent, isUnauthorized]

/-- Claim C2 (amended): on a fresh guard the first `authenticate()` call
emits exactly one failure event when (and only when) it surfaces an
unauthorized failure; the memoized repeat and `getUserOrFail()` surface
unauthorized without emitting anything, so emitted failure events count
the first-call failures, not every surfaced unauthorized error. -/
theorem c2_failure_event_accounting (cfg : Config U) (s : SessionStore) :
    failedEventCount ((authenticate cfg (initialWorld s)).2).log =
      (if isUnauthorized (authenticate cfg (initialWorld s)).1 then 1 else 0) ∧
    (authenticate cfg (authenticate cfg (initialWorld s)).2).2 =
      (authenticate cfg (initialWorld s)).2 ∧
    (getUserOrFail (authenticate cfg (initialWorld s)).2).2 =
      (authenticate cfg (initialWorld s)).2 := by
  refine ⟨?_, ?_, getUserOrFail_world _⟩
  · have h := authenticate_failed_count cfg (initialWorld s) rfl
    simpa [initialWorld, failedEventCount] using h
  · rw [authenticate_of_attempted cfg _ (authenticate_attempted cfg _)]

/-- Claim C2 counterexample: on a request with no credentials the second
`authenticate()` call surfaces an unauthorized failure although no
`authentication_failed` event was ever emitted — failure events do not
equal surfaced unauthorized failures. -/
theorem c2_counterexample_memoized_unauthorized :
    (authenticate cfgNoCookie (authenticate cfgNoCookie (initialWorld emptyStore)).2).1 =
      Except.error (AuthError.unauthorized driverName) ∧
    failedEventCount
      ((authenticate cfgNoCookie
        (authenticate cfgNoCookie (initialWorld emptyStore)).2).2).log = 0 :=
  ⟨rfl, rfl⟩

theorem authenticateViaId_inv (cfg : Config U) (w : World U) (uid : Nat) (sid : String)
    (hAt : w.guard.authenticationAttempted = true)
    (hu : w.guard.user = none) (hi : w.guard.isAuthenticated = false)
    (hz : succeededEventCount w.log = 0) :
    GuardInv ((authenticateViaId cfg w uid sid).2) := by
  unfold authenticateViaId
  dsimp only
  split
  · refine ⟨?_, ?_, ?_⟩ <;>
      simp [authenticationFailed, World.logged, hu, hi, hz, hAt,
        succeededEventCount_append, succeededEventCount_cons, succeededEventCount_nil,
        isSucceededEvent]
  · refine ⟨?_, ?_, ?_⟩ <;>
      simp [authenticationSucceeded, World.logged, hz, hAt,
        succeededEventCount_append, succeededEventCount_cons, succeededEventCount_nil,
        isSucceededEvent]

theorem authenticateViaRememberCookie_inv (cfg : Config U) (w : World U)
    (c sid : String)
    (hAt : w.guard.authenticationAttempted = true)
    (hu : w.guard.user = none) (hi : w.guard.isAuthenticated = false)
    (hz : succeededEventCount w.log = 0) :
    GuardInv ((authenticateViaRememberCookie cfg w c sid).2) := by
  unfold authenticateViaRememberCookie
  dsimp only
  split
  · refine ⟨?_, ?_, ?_⟩ <;>
      simp [authenticationFailed, World.logged, hu, hi, hz, hAt,
        succeededEventCount_append, succeededEventCount_cons, succeededEventCount_nil,
        isSucceededEvent]
  · split
    · refine ⟨?_, ?_, ?_⟩ <;>
        simp [authenticationFailed, World.logged, hu, hi, hz, hAt,
          succeededEventCount_append, succeededEventCount_cons, succeededEventCount_nil,
          isSucceededEvent]
    · cases hS : cfg.hasSession with
      | false =>
        refine ⟨?_, ?_, ?_⟩ <;>
          simp [createSessionForUser, hS, World.logged, hu, hi, hz, hAt,
            succeededEventCount_append, succeededEventCount_cons, succeededEventCount_nil,
            isSucceededEvent]
      | true =>
        refine ⟨?_, ?_, ?_⟩ <;>
          simp [createSessionForUser, hS, authenticationSucceeded,
            createRememberMeCookie, World.logged, hz, hAt,
            succeededEventCount_append, succeededEventCount_cons, succeededEventCount_nil,
            isSucceededEvent]

theorem authenticate_inv (cfg : Config U) (w : World U) (h : GuardInv w) :
    GuardInv ((authenticate cfg w).2) := by
  by_cases hA : w.guard.authenticationAttempted = true
  · rw [authenticate_of_attempted cfg w hA]
    exact h
  · have hA2 : w.guard.authenticationAttempted = false := by
      simpa using hA
    obtain ⟨h1, h2, h3⟩ := h
    obtain ⟨hu, hi, hz⟩ := h3 hA2
    unfold authenticate
    rw [if_neg hA]
    dsimp only
    split
    · exact ⟨by simp [hu, hi], by simpa using h2, by intro hc; exact absurd hc (by simp)⟩
    · split
      · apply authenticateViaId_inv <;>
          simp [World.logged, hu, hi, hz, succeededEventCount_append,
            succeededEventCount_cons, succeededEventCount_nil, isSucceededEvent]
      · split
        · apply authenticateViaRememberCookie_inv <;>
            simp [World.logged, hu, hi, hz, succeededEventCount_append,
              succeededEventCount_cons, succeededEventCount_nil, isSucceededEvent]
        · refine ⟨by simp [World.logged, hu, hi], ?_,
            by intro hc; simp [World.logged] at hc⟩
          simp [World.logged, hz, succeededEventCount_append,
            succeededEventCount_cons, succeededEventCount_nil, isSucceededEvent]

theorem runOp_inv (cfg : Config U) (w : World U) (op : GuardOp U)
    (h : GuardInv w) : GuardInv (runOp cfg w op) := by
  cases op with
  | auth => exact authenticate_inv cfg w h
  | chk =>
    show GuardInv ((check cfg w).2)
    rw [check_eq]
    exact authenticate_inv cfg w h
  | getOrFail =>
    show GuardInv ((getUserOrFail w).2)
    rw [getUserOrFail_world]
    exact h
  | asClient u =>
    obtain ⟨h1, h2, h3⟩ := h
    refine ⟨h1, ?_, ?_⟩
    · simpa [runOp, authenticateAsClient, World.logged, succeededEventCount_append,
        succeededEventCount_cons, succeededEventCount_nil, isSucceededEvent] using h2
    · intro hA
      obtain ⟨hu, hi, hz⟩ := h3 hA
      refine ⟨hu, hi, ?_⟩
      simp [runOp, authenticateAsClient, World.logged, succeededEventCount_append,
        succeededEventCount_cons, succeededEventCount_nil, isSucceededEvent, hz]

theorem runOps_inv (cfg : Config U) (w : World U) (ops : List (GuardOp U))
    (h : GuardInv w) : GuardInv (runOps cfg w ops) := by
  induction ops generalizing w with
  | nil => exact h
  | cons op ops ih => exact ih _ (runOp_inv cfg w op h)

/-- Claim C8: in every guard state reachable from a fresh guard by any
sequence of `authenticate()`, `check()`, `getUserOrFail()` and
`authenticateAsClient()` calls, the user is set exactly when
`isAuthenticated` is true, and at most one successful authentication
outcome is recorded for the request. -/
theorem c8_state_invariant (cfg : Config U) (s : SessionStore)
    (ops : List (GuardOp U)) :
    ((runOps cfg (initialWorld s) ops)).guard.user.isSome =
      ((runOps cfg (initialWorld s) ops)).guard.isAuthenticated ∧
    succeededEventCount ((runOps cfg (initialWorld s) ops)).log ≤ 1 := by
  have h0 : GuardInv (initialWorld s : World U) :=
    ⟨rfl, by simp [initialWorld, succeededEventCount], fun _ => ⟨rfl, rfl, rfl⟩⟩
  have h := runOps_inv cfg (initialWorld s) ops h0
  exact ⟨h.1, h.2.1⟩

end SessionAuth
